import Mathlib

/-!
Verification of the presence/message-broadcast core of a real-time chat
relay (an Express + Socket.IO server with a MongoDB durable store and an
in-memory fallback, plus its browser client).

The server side (`server.js`) is embedded as pure functions over an
explicit `ServerState`; each Socket.IO handler becomes a Lean function
from the state, the per-connection socket record and the (dynamically
typed) payload to a new state together with the list of emitted events.
JavaScript's dynamic payloads are modelled by `JSValue`, and a thrown
`TypeError` (e.g. reading a property of `null`, or calling `.trim` on a
non-string) is modelled by `Except JSError`.  The client-side join
validation (`app.js`, `ChatApp.joinChat`) is embedded separately.
-/

/-- The JavaScript whitespace characters relevant to `String.prototype.trim`
for the inputs considered here (space, tab, newline, carriage return). -/
def jsWhitespace (c : Char) : Bool :=
  c = ' ' || c = '\t' || c = '\n' || c = '\r'

/-- Embedding of JavaScript `String.prototype.trim`: strip leading and
trailing whitespace. -/
def jsTrim (s : String) : String :=
  ⟨((s.data.dropWhile jsWhitespace).reverse.dropWhile jsWhitespace).reverse⟩

/-- A dynamically typed JavaScript value, as delivered by Socket.IO to a
server-side event handler.  `null` also stands for `undefined`. -/
inductive JSValue where
  | null
  | str (s : String)
  | bool (b : Bool)
  | num (n : Int)
  | obj (fields : List (String × JSValue))

/-- A runtime error thrown inside a handler.  The handlers under study can
only throw `TypeError` (property access on `null`/`undefined`, or calling
`.trim` on a value that has no such method). -/
inductive JSError where
  | typeError
deriving DecidableEq

/-- JavaScript truthiness, as used by `if (!username || ...)`. -/
def jsTruthy : JSValue → Bool
  | .null => false
  | .str s => s != ""
  | .bool b => b
  | .num n => n != 0
  | .obj _ => true

/-- Embedding of the property access `v.k`: throws a `TypeError` on
`null`/`undefined`, yields the field (or `undefined`) on an object, and
yields `undefined` on other primitives. -/
def jsGetField : JSValue → String → Except JSError JSValue
  | .null, _ => .error .typeError
  | .obj fields, k =>
      .ok (match fields.find? (fun p => p.1 == k) with
            | some p => p.2
            | none => .null)
  | _, _ => .ok .null

/-- Embedding of the method call `v.trim()`: succeeds exactly on strings;
on anything else (`undefined`, `null`, numbers, booleans, objects) the
call throws a `TypeError`. -/
def jsCallTrim : JSValue → Except JSError String
  | .str s => .ok (jsTrim s)
  | _ => .error .typeError

/-- A chat message (`messageData` in `server.js`): author username, body
text and a timestamp (`new Date()` is modelled by a `Nat` clock value). -/
structure Msg where
  username : String
  message : String
  timestamp : Nat
deriving DecidableEq

/-- The value stored in the `activeUsers` map: `{ id: socket.id, joinedAt }`. -/
structure UserData where
  id : Nat
  joinedAt : Nat
deriving DecidableEq

/-- A Socket.IO socket as the server sees it: its id and the `username`
property that the `join` handler attaches (`none` before a successful
join, i.e. the Unidentified state). -/
structure Socket where
  id : Nat
  username : Option String
deriving DecidableEq

/-- The mutable server-side state of `server.js`: the `isDbConnected`
flag set once by `connectDB`, the in-memory message buffer
`memoryMessages`, the contents of the MongoDB `Message` collection, and
the `activeUsers` map (username to `UserData`, in insertion order as a
JavaScript `Map` iterates it). -/
structure ServerState where
  isDbConnected : Bool
  memoryMessages : List Msg
  dbMessages : List Msg
  activeUsers : List (String × UserData)
deriving DecidableEq

/-- The server state right after startup: `memoryMessages = []`, an empty
user map, and `isDbConnected` as determined by the single `connectDB`
attempt (`true` on success, `false` on failure). -/
def initialState (connected : Bool) : ServerState :=
  ⟨connected, [], [], []⟩

/-- The destination of an emitted Socket.IO event: `io.emit` (all),
`socket.broadcast.emit` (all but the origin socket), `socket.emit` (one). -/
inductive Target where
  | toAll
  | toOthers (origin : Nat)
  | toOne (dest : Nat)
deriving DecidableEq

/-- The server-to-client events of `server.js`. -/
inductive Event where
  | errorSignal (reason : String)
  | userJoined (username : String) (timestamp : Nat)
  | usersUpdate (users : List String)
  | newMessage (m : Msg)
  | userTyping (username : String) (isTyping : JSValue)
  | userLeft (username : String) (timestamp : Nat)

/-- An emission: a destination paired with an event. -/
abbrev Emit := Target × Event

/-- JavaScript `Map.prototype.set`: overwrite in place if the key is
present (keeping its original iteration position), otherwise append. -/
def mapSet (m : List (String × UserData)) (k : String) (v : UserData) :
    List (String × UserData) :=
  if m.any (fun p => p.1 == k) then
    m.map (fun p => if p.1 == k then (k, v) else p)
  else
    m ++ [(k, v)]

/-- JavaScript `Map.prototype.delete` for a map with distinct keys:
remove the binding of `k` (no-op when absent). -/
def mapDelete (m : List (String × UserData)) (k : String) :
    List (String × UserData) :=
  m.filter (fun p => p.1 != k)

/-- The in-memory buffer update of the `send-message` handler:
`memoryMessages.push(msg)` followed by
`if (memoryMessages.length > 100) memoryMessages = memoryMessages.slice(-100)`. -/
def pushMemory (buf : List Msg) (m : Msg) : List Msg :=
  if (buf ++ [m]).length > 100 then
    (buf ++ [m]).drop ((buf ++ [m]).length - 100)
  else
    buf ++ [m]

/-- JavaScript `array.slice(-n)`: the last `n` elements (the whole array
when it is shorter). -/
def lastN (n : Nat) (l : List Msg) : List Msg :=
  l.drop (l.length - n)

/-- The `socket.on('join')` handler.  Checks
`!username || username.trim() === ''` (property access `username.trim`
throws on truthy non-strings), then sets `socket.username`, writes the
`activeUsers` map, broadcasts `user-joined` to the others and
`users-update` to everyone.  No length check is performed here. -/
def handleJoin (st : ServerState) (sock : Socket) (username : JSValue)
    (now : Nat) : Except JSError (ServerState × Socket × List Emit) :=
  if !(jsTruthy username) then
    .ok (st, sock, [(.toOne sock.id, .errorSignal "Username is required")])
  else
    match jsCallTrim username with
    | .error e => .error e
    | .ok t =>
      if t = "" then
        .ok (st, sock, [(.toOne sock.id, .errorSignal "Username is required")])
      else
        let users' := mapSet st.activeUsers t ⟨sock.id, now⟩
        .ok ({ st with activeUsers := users' },
             { sock with username := some t },
             [(.toOthers sock.id, .userJoined t now),
              (.toAll, .usersUpdate (users'.map Prod.fst))])

/-- The `socket.on('send-message')` handler.  An unidentified socket gets
the error `'You must join first'` and nothing else happens.  Otherwise
`data.message.trim()` is evaluated (throwing a `TypeError` when `data` is
`null` or `data.message` is not a string), an empty trimmed body returns
silently, and a non-empty body is pushed to the memory buffer, appended
to the database when connected and the `save` succeeds (a failed save is
caught and only logged: `dbSaveOk = false` leaves the store unchanged),
and finally broadcast as `new-message` to all sockets. -/
def handleSendMessage (st : ServerState) (sock : Socket) (data : JSValue)
    (dbSaveOk : Bool) (now : Nat) :
    Except JSError (ServerState × List Emit) :=
  match sock.username with
  | none => .ok (st, [(.toOne sock.id, .errorSignal "You must join first")])
  | some name =>
    match jsGetField data "message" with
    | .error e => .error e
    | .ok raw =>
      match jsCallTrim raw with
      | .error e => .error e
      | .ok body =>
        let messageData : Msg := ⟨name, body, now⟩
        if body = "" then
          .ok (st, [])
        else
          let mem := pushMemory st.memoryMessages messageData
          let db' := if st.isDbConnected && dbSaveOk then
              st.dbMessages ++ [messageData]
            else st.dbMessages
          .ok ({ st with memoryMessages := mem, dbMessages := db' },
               [(.toAll, .newMessage messageData)])

/-- The `socket.on('typing')` handler: ignored before join; otherwise
reads `data.isTyping` (throwing on a `null` payload) and broadcasts
`user-typing` to the other sockets.  It never touches the server state. -/
def handleTyping (sock : Socket) (data : JSValue) :
    Except JSError (List Emit) :=
  match sock.username with
  | none => .ok []
  | some name =>
    match jsGetField data "isTyping" with
    | .error e => .error e
    | .ok t => .ok [(.toOthers sock.id, .userTyping name t)]

/-- The `socket.on('disconnect')` handler: if the socket had a username,
delete that key from `activeUsers`, broadcast `user-left` to the others
and the refreshed roster to everyone; otherwise do nothing. -/
def handleDisconnect (st : ServerState) (sock : Socket) (now : Nat) :
    ServerState × List Emit :=
  match sock.username with
  | none => (st, [])
  | some name =>
    let users' := mapDelete st.activeUsers name
    ({ st with activeUsers := users' },
     [(.toOthers sock.id, .userLeft name now),
      (.toAll, .usersUpdate (users'.map Prod.fst))])

/-- Comparison used to embed the MongoDB query
`Message.find().sort({ timestamp: -1 })`: descending timestamps. -/
def tsDesc (a b : Msg) : Bool := b.timestamp ≤ a.timestamp

/-- The database read of `GET /api/messages`: sort by timestamp
descending, `limit(50)`, then `reverse()` to chronological order. -/
def queryRecentDb (db : List Msg) : List Msg :=
  ((db.mergeSort tsDesc).take 50).reverse

/-- The `GET /api/messages` route.  When `isDbConnected` the database is
queried; `dbQueryOk = false` models the query throwing, in which case the
`catch` block answers from memory with source `memory-fallback`.  When
not connected, the answer is `memoryMessages.slice(-50)` with source
`memory`.  The route never mutates the server state. -/
def apiMessages (st : ServerState) (dbQueryOk : Bool) :
    List Msg × String :=
  if st.isDbConnected then
    if dbQueryOk then (queryRecentDb st.dbMessages, "database")
    else (lastN 50 st.memoryMessages, "memory-fallback")
  else (lastN 50 st.memoryMessages, "memory")

/-- Outcome of the client-side `ChatApp.joinChat` in `app.js`: either the
client emits `join` with the given name, or it shows an error and emits
nothing. -/
inductive ClientJoinOutcome where
  | emitJoin (name : String)
  | showError (msg : String)
deriving DecidableEq

/-- Embedding of `ChatApp.joinChat`: trim the input field, reject an
empty result, reject a result longer than 20 characters, otherwise emit
the `join` event with the trimmed name. -/
def joinChat (inputValue : String) : ClientJoinOutcome :=
  if jsTrim inputValue = "" then .showError "Please enter a username"
  else if (jsTrim inputValue).length > 20 then
    .showError "Username must be 20 characters or less"
  else .emitJoin (jsTrim inputValue)

/-- Chronologically ascending: each message's timestamp is at most every
later message's timestamp. -/
def Chron (l : List Msg) : Prop :=
  l.Pairwise (fun a b => a.timestamp ≤ b.timestamp)

/-- One state-changing server action: a `join`, `send-message` or
`disconnect` handler invocation that completed without throwing (the
`typing` handler and the HTTP routes never modify the state, as their
types show). -/
inductive Step : ServerState → ServerState → Prop
  | join (sock : Socket) (v : JSValue) (now : Nat) {st st' : ServerState}
      (sock' : Socket) (es : List Emit)
      (h : handleJoin st sock v now = .ok (st', sock', es)) : Step st st'
  | send (sock : Socket) (data : JSValue) (dbSaveOk : Bool) (now : Nat)
      {st st' : ServerState} (es : List Emit)
      (h : handleSendMessage st sock data dbSaveOk now = .ok (st', es)) :
      Step st st'
  | disconnect (sock : Socket) (now : Nat) {st st' : ServerState}
      (es : List Emit)
      (h : handleDisconnect st sock now = (st', es)) : Step st st'

/-- States reachable from a given initial state by server actions. -/
inductive Reachable (init : ServerState) : ServerState → Prop
  | refl : Reachable init init
  | step {a b : ServerState} : Reachable init a → Step a b →
      Reachable init b

/-- Message number `i` of the sequential-push scenario: author `"u"`,
body `"m"`, timestamp `i`. -/
def mkMsg (i : Nat) : Msg := ⟨"u", "m", i⟩

/-- The memory buffer after pushing messages number 1 to 150 in order
into an empty buffer. -/
def pushedBuffer150 : List Msg :=
  (List.range 150).foldl (fun b i => pushMemory b (mkMsg (i + 1))) []

/-! ### Helper lemmas about the buffer and the maps -/

/-- The buffer update of a send always leaves at most 100 messages. -/
theorem pushMemory_length_le (buf : List Msg) (m : Msg) :
    (pushMemory buf m).length ≤ 100 := by
  unfold pushMemory
  split
  · simp only [List.length_drop]
    omega
  · rename_i h
    omega

/-- FIFO characterisation of the buffer update: the result is the suffix
of `buf ++ [m]` obtained by dropping the oldest entries beyond 100. -/
theorem pushMemory_eq_drop (buf : List Msg) (m : Msg) :
    pushMemory buf m = (buf ++ [m]).drop (buf.length + 1 - 100) := by
  unfold pushMemory
  split
  · rename_i h
    simp only [List.length_append, List.length_cons, List.length_nil] at h ⊢
  · rename_i h
    simp only [List.length_append, List.length_cons, List.length_nil] at h
    rw [show buf.length + 1 - 100 = 0 by omega, List.drop_zero]

/-- After `mapDelete m k`, the key `k` is gone from the key list. -/
theorem mapDelete_not_mem (m : List (String × UserData)) (k : String) :
    k ∉ (mapDelete m k).map Prod.fst := by
  intro hmem
  rw [List.mem_map] at hmem
  obtain ⟨p, hp, hfst⟩ := hmem
  rw [mapDelete, List.mem_filter] at hp
  have hne := hp.2
  simp only [bne_iff_ne, ne_eq] at hne
  exact hne hfst

/-- After `mapSet m k v`, the key `k` is present in the key list. -/
theorem mapSet_mem (m : List (String × UserData)) (k : String)
    (v : UserData) : k ∈ (mapSet m k v).map Prod.fst := by
  unfold mapSet
  split
  · rename_i h
    simp only [List.any_eq_true, beq_iff_eq] at h
    obtain ⟨p, hp, hk⟩ := h
    exact List.mem_map.mpr
      ⟨(k, v), List.mem_map.mpr ⟨p, hp, by simp [hk]⟩, rfl⟩
  · simp

/-! ### Claim theorems: send-message path -/

/-- C7: a `send-message` from a connection that never joined is answered
with the explicit error `'You must join first'` sent to that connection
only; the server state is unchanged (no broadcast, no buffer write, no
durable write), the handler does not throw, and the socket record (hence
its Unidentified state) is untouched, whatever the payload. -/
theorem sendMessage_unidentified_rejected (st : ServerState)
    (sock : Socket) (data : JSValue) (dbSaveOk : Bool) (now : Nat)
    (h : sock.username = none) :
    handleSendMessage st sock data dbSaveOk now =
      .ok (st, [(Target.toOne sock.id,
                 Event.errorSignal "You must join first")]) := by
  unfold handleSendMessage
  rw [h]

theorem sendMessage_unidentified_rejected_witness :
    (Socket.mk 0 none).username = none ∧
    handleSendMessage (initialState false) ⟨0, none⟩ .null true 0 =
      .ok (initialState false,
        [(Target.toOne 0, Event.errorSignal "You must join first")]) :=
  ⟨rfl, sendMessage_unidentified_rejected (initialState false) ⟨0, none⟩
    .null true 0 rfl⟩

/-- C6: a `send-message` from an identified connection whose body trims
to the empty string is silently dropped: the handler returns with the
state unchanged (nothing appended to the memory buffer or the database)
and emits nothing at all (no broadcast and no error signal). -/
theorem sendMessage_whitespace_dropped (st : ServerState) (sock : Socket)
    (name s : String) (dbSaveOk : Bool) (now : Nat)
    (hj : sock.username = some name) (hs : jsTrim s = "") :
    handleSendMessage st sock (.obj [("message", .str s)]) dbSaveOk now =
      .ok (st, []) := by
  unfold handleSendMessage
  rw [hj]
  simp [jsGetField, jsCallTrim, hs]

theorem sendMessage_whitespace_dropped_witness :
    (Socket.mk 3 (some "alice")).username = some "alice" ∧
    jsTrim "   " = "" ∧
    handleSendMessage ⟨true, [mkMsg 1], [mkMsg 1], [("alice", ⟨3, 0⟩)]⟩
        ⟨3, some "alice"⟩ (.obj [("message", .str "   ")]) true 7 =
      .ok (⟨true, [mkMsg 1], [mkMsg 1], [("alice", ⟨3, 0⟩)]⟩, []) :=
  ⟨rfl, by decide,
   sendMessage_whitespace_dropped ⟨true, [mkMsg 1], [mkMsg 1], [("alice", ⟨3, 0⟩)]⟩
     ⟨3, some "alice"⟩ "alice" "   " true 7 rfl (by decide)⟩

/-- C8: a validated send (identified connection, body non-empty after
trim) appends the message to the memory buffer and broadcasts
`new-message` to all connections (the sender included, via `Target.toAll`),
for every value of `isDbConnected` and of the durable-save outcome
`dbSaveOk`: a failed durable write only leaves `dbMessages` unchanged and
never suppresses the broadcast or the buffer write. -/
theorem sendMessage_validated_broadcast (st : ServerState) (sock : Socket)
    (name s : String) (dbSaveOk : Bool) (now : Nat)
    (hj : sock.username = some name) (hs : jsTrim s ≠ "") :
    handleSendMessage st sock (.obj [("message", .str s)]) dbSaveOk now =
      .ok ({ st with
              memoryMessages := pushMemory st.memoryMessages ⟨name, jsTrim s, now⟩,
              dbMessages := if st.isDbConnected && dbSaveOk then
                  st.dbMessages ++ [⟨name, jsTrim s, now⟩]
                else st.dbMessages },
           [(Target.toAll, Event.newMessage ⟨name, jsTrim s, now⟩)]) := by
  unfold handleSendMessage
  rw [hj]
  simp [jsGetField, jsCallTrim, hs]

theorem sendMessage_validated_broadcast_witness :
    (Socket.mk 3 (some "alice")).username = some "alice" ∧
    jsTrim " hi " ≠ "" ∧
    handleSendMessage ⟨true, [], [], [("alice", ⟨3, 0⟩)]⟩
        ⟨3, some "alice"⟩ (.obj [("message", .str " hi ")]) false 7 =
      .ok (⟨true, [⟨"alice", "hi", 7⟩], [], [("alice", ⟨3, 0⟩)]⟩,
           [(Target.toAll, Event.newMessage ⟨"alice", "hi", 7⟩)]) := by
  refine ⟨rfl, by decide, ?_⟩
  have h := sendMessage_validated_broadcast ⟨true, [], [], [("alice", ⟨3, 0⟩)]⟩
    ⟨3, some "alice"⟩ "alice" " hi " false 7 rfl (by decide)
  simpa [pushMemory, show jsTrim " hi " = "hi" by decide] using h

/-! ### Claim theorems: disconnect -/

/-- C9: disconnecting an identified connection deletes its username from
the `activeUsers` registry (the key is absent afterwards) and emits
exactly one `user-left` (to the other connections) followed by exactly
one `users-update` roster broadcast (to all connections); disconnecting a
connection that never identified emits nothing and leaves the state
untouched. -/
theorem disconnect_spec (st : ServerState) (sock : Socket) (now : Nat) :
    (∀ name, sock.username = some name →
      handleDisconnect st sock now =
        ({ st with activeUsers := mapDelete st.activeUsers name },
         [(Target.toOthers sock.id, Event.userLeft name now),
          (Target.toAll, Event.usersUpdate
            ((mapDelete st.activeUsers name).map Prod.fst))]) ∧
      name ∉ (mapDelete st.activeUsers name).map Prod.fst) ∧
    (sock.username = none → handleDisconnect st sock now = (st, [])) := by
  constructor
  · intro name hn
    constructor
    · unfold handleDisconnect
      rw [hn]
    · exact mapDelete_not_mem st.activeUsers name
  · intro hn
    unfold handleDisconnect
    rw [hn]

theorem disconnect_spec_witness :
    ((Socket.mk 4 (some "bob")).username = some "bob" ∧
      handleDisconnect ⟨true, [], [], [("ann", ⟨1, 0⟩), ("bob", ⟨4, 2⟩)]⟩
          ⟨4, some "bob"⟩ 9 =
        ({ (⟨true, [], [], [("ann", ⟨1, 0⟩), ("bob", ⟨4, 2⟩)]⟩ : ServerState) with
            activeUsers :=
              mapDelete [("ann", ⟨1, 0⟩), ("bob", ⟨4, 2⟩)] "bob" },
         [(Target.toOthers 4, Event.userLeft "bob" 9),
          (Target.toAll, Event.usersUpdate
            ((mapDelete [("ann", ⟨1, 0⟩), ("bob", ⟨4, 2⟩)] "bob").map
              Prod.fst))]) ∧
      "bob" ∉ (mapDelete [("ann", ⟨1, 0⟩), ("bob", ⟨4, 2⟩)] "bob").map
          Prod.fst) ∧
    ((Socket.mk 8 none).username = none ∧
      handleDisconnect ⟨true, [], [], [("ann", ⟨1, 0⟩)]⟩ ⟨8, none⟩ 9 =
        (⟨true, [], [], [("ann", ⟨1, 0⟩)]⟩, [])) :=
  ⟨⟨rfl, (disconnect_spec ⟨true, [], [], [("ann", ⟨1, 0⟩), ("bob", ⟨4, 2⟩)]⟩
      ⟨4, some "bob"⟩ 9).1 "bob" rfl⟩,
   ⟨rfl, (disconnect_spec ⟨true, [], [], [("ann", ⟨1, 0⟩)]⟩
      ⟨8, none⟩ 9).2 rfl⟩⟩

/-- C10: when two connections join with the same trimmed name, the second
join overwrites the registry entry (last writer wins), and a later
disconnect of the first connection deletes the entry by name without
checking ownership: the still-connected second client disappears from the
roster and a `user-left` is broadcast for an identity that is still
present.  Concretely: socket 0 joins as `alice`, socket 1 joins as
`alice` (overwriting the entry with its own id), then socket 0
disconnects, which empties the registry and broadcasts `user-left alice`
and an empty roster while socket 1 still holds the username `alice`. -/
theorem duplicate_name_disconnect_scenario :
    handleJoin (initialState false) ⟨0, none⟩ (.str "alice") 0 =
      .ok (⟨false, [], [], [("alice", ⟨0, 0⟩)]⟩, ⟨0, some "alice"⟩,
        [(Target.toOthers 0, Event.userJoined "alice" 0),
         (Target.toAll, Event.usersUpdate ["alice"])]) ∧
    handleJoin ⟨false, [], [], [("alice", ⟨0, 0⟩)]⟩ ⟨1, none⟩
        (.str "alice") 1 =
      .ok (⟨false, [], [], [("alice", ⟨1, 1⟩)]⟩, ⟨1, some "alice"⟩,
        [(Target.toOthers 1, Event.userJoined "alice" 1),
         (Target.toAll, Event.usersUpdate ["alice"])]) ∧
    handleDisconnect ⟨false, [], [], [("alice", ⟨1, 1⟩)]⟩
        ⟨0, some "alice"⟩ 2 =
      (⟨false, [], [], []⟩,
       [(Target.toOthers 0, Event.userLeft "alice" 2),
        (Target.toAll, Event.usersUpdate [])]) ∧
    (Socket.mk 1 (some "alice")).username = some "alice" :=
  ⟨rfl, rfl, rfl, rfl⟩

/-! ### Claim theorems: the 20-character name cap -/

/-- A 21-character display name, already free of surrounding whitespace. -/
def longName : String := "aaaaaaaaaaaaaaaaaaaaa"

/-- C1 counterexample: the server-side `join` handler accepts a name of
21 characters (after trimming): it registers the name in `activeUsers`,
attaches it to the socket and broadcasts the join, emitting no error
signal — the claim that every such join is rejected is false of the
server. -/
theorem join_overlong_accepted_cex :
    (jsTrim longName).length = 21 ∧
    handleJoin (initialState true) ⟨0, none⟩ (.str longName) 0 =
      .ok (⟨true, [], [], [(longName, ⟨0, 0⟩)]⟩, ⟨0, some longName⟩,
        [(Target.toOthers 0, Event.userJoined longName 0),
         (Target.toAll, Event.usersUpdate [longName])]) :=
  ⟨by decide, rfl⟩

/-- C1 amended: the 20-character cap is enforced only client-side.
`ChatApp.joinChat` rejects a trimmed name longer than 20 characters with
the error message `'Username must be 20 characters or less'` and emits no
`join` action, so through the shipped client such a join never reaches
the server; the server-side handler itself accepts every name that is
non-empty after trimming, whatever its length, registering the trimmed
name untruncated and emitting no error signal. -/
theorem join_length_cap_client_side (input : String) (st : ServerState)
    (sock : Socket) (s : String) (now : Nat) :
    (20 < (jsTrim input).length →
      joinChat input = .showError "Username must be 20 characters or less") ∧
    (jsTrim s ≠ "" →
      handleJoin st sock (.str s) now =
        .ok ({ st with
                activeUsers := mapSet st.activeUsers (jsTrim s) ⟨sock.id, now⟩ },
             { sock with username := some (jsTrim s) },
             [(Target.toOthers sock.id, Event.userJoined (jsTrim s) now),
              (Target.toAll, Event.usersUpdate
                ((mapSet st.activeUsers (jsTrim s) ⟨sock.id, now⟩).map
                  Prod.fst))]) ∧
      jsTrim s ∈ (mapSet st.activeUsers (jsTrim s) ⟨sock.id, now⟩).map
        Prod.fst) := by
  constructor
  · intro h
    have hne : jsTrim input ≠ "" := by
      intro he
      rw [he] at h
      simp at h
    unfold joinChat
    rw [if_neg hne, if_pos h]
  · intro hs
    have hs' : s ≠ "" := by
      intro he
      subst he
      exact hs rfl
    refine ⟨?_, mapSet_mem st.activeUsers (jsTrim s) ⟨sock.id, now⟩⟩
    unfold handleJoin
    have ht : jsTruthy (.str s) = true := by
      simp [jsTruthy, hs']
    rw [ht]
    simp only [Bool.not_true, Bool.false_eq_true, if_false, jsCallTrim]
    rw [if_neg hs]

theorem join_length_cap_client_side_witness :
    (20 < (jsTrim longName).length ∧
      joinChat longName =
        .showError "Username must be 20 characters or less") ∧
    (jsTrim " bob " ≠ "" ∧
      handleJoin (initialState true) ⟨5, none⟩ (.str " bob ") 3 =
        .ok ({ (initialState true) with
                activeUsers := mapSet (initialState true).activeUsers
                  (jsTrim " bob ") ⟨5, 3⟩ },
             { (Socket.mk 5 none) with username := some (jsTrim " bob ") },
             [(Target.toOthers 5, Event.userJoined (jsTrim " bob ") 3),
              (Target.toAll, Event.usersUpdate
                ((mapSet (initialState true).activeUsers (jsTrim " bob ")
                  ⟨5, 3⟩).map Prod.fst))]) ∧
      jsTrim " bob " ∈ (mapSet (initialState true).activeUsers
        (jsTrim " bob ") ⟨5, 3⟩).map Prod.fst) :=
  ⟨⟨by decide, (join_length_cap_client_side longName (initialState true)
      ⟨5, none⟩ " bob " 3).1 (by decide)⟩,
   ⟨by decide, (join_length_cap_client_side longName (initialState true)
      ⟨5, none⟩ " bob " 3).2 (by decide)⟩⟩

/-! ### Claim theorems: malformed payloads -/

/-- The proposition that a handler invocation returned normally rather
than throwing. -/
def NoThrow {α : Type} : Except JSError α → Prop
  | .ok _ => True
  | .error _ => False

/-- C2 counterexample: four malformed actions that make a handler throw
a `TypeError` instead of degrading to a no-op or a validation error: a
`join` whose payload is a truthy non-string (an object: `username.trim`
is not a function), a `send-message` with a `null` payload from an
identified connection (`data.message` on `null` throws), a
`send-message` whose payload lacks the `message` field
(`undefined.trim()` throws), and a `typing` with a `null` payload from
an identified connection (`data.isTyping` throws). -/
theorem malformed_payload_crash_cex :
    handleJoin (initialState true) ⟨0, none⟩ (.obj []) 0 =
      .error .typeError ∧
    handleSendMessage (initialState true) ⟨0, some "alice"⟩ .null true 0 =
      .error .typeError ∧
    handleSendMessage (initialState true) ⟨0, some "alice"⟩
        (.obj [("text", .str "hi")]) true 0 = .error .typeError ∧
    handleTyping ⟨0, some "alice"⟩ .null = .error .typeError :=
  ⟨rfl, rfl, rfl, rfl⟩

/-- C2 amended: the no-crash guarantee holds only piecewise.
`send-message` and `typing` from an Unidentified connection never crash,
whatever the payload; a `join` never crashes when its payload is a
string or is falsy; a `send-message` whose payload has the expected
shape `{message: string}` and a `typing` whose payload has the shape
`{isTyping: _}` never crash from any state.  But a `join` whose payload
is a truthy non-string throws a `TypeError`, and so does a
`send-message` with a `null` payload from an identified connection: a
malformed action can crash the handler rather than degrade to a no-op
or a validation error. -/
theorem handlers_crash_characterisation :
    (∀ (st : ServerState) (sock : Socket) (data : JSValue)
      (dbSaveOk : Bool) (now : Nat), sock.username = none →
        NoThrow (handleSendMessage st sock data dbSaveOk now) ∧
        NoThrow (handleTyping sock data)) ∧
    (∀ (st : ServerState) (sock : Socket) (s : String) (now : Nat),
        NoThrow (handleJoin st sock (.str s) now)) ∧
    (∀ (st : ServerState) (sock : Socket) (v : JSValue) (now : Nat),
        jsTruthy v = false → NoThrow (handleJoin st sock v now)) ∧
    (∀ (st : ServerState) (sock : Socket) (s : String) (dbSaveOk : Bool)
      (now : Nat),
        NoThrow (handleSendMessage st sock (.obj [("message", .str s)])
          dbSaveOk now)) ∧
    (∀ (sock : Socket) (v : JSValue),
        NoThrow (handleTyping sock (.obj [("isTyping", v)]))) ∧
    (∀ (st : ServerState) (sock : Socket) (v : JSValue) (now : Nat),
        jsTruthy v = true → (∀ s, v ≠ .str s) →
        handleJoin st sock v now = .error .typeError) ∧
    (∀ (st : ServerState) (sock : Socket) (name : String)
      (dbSaveOk : Bool) (now : Nat), sock.username = some name →
        handleSendMessage st sock .null dbSaveOk now =
          .error .typeError) := by
  refine ⟨?_, ?_, ?_, ?_, ?_, ?_, ?_⟩
  · intro st sock data dbSaveOk now h
    constructor
    · unfold handleSendMessage
      rw [h]
      trivial
    · unfold handleTyping
      rw [h]
      trivial
  · intro st sock s now
    by_cases ht : s = ""
    · subst ht
      trivial
    · have h1 : jsTruthy (.str s) = true := by simp [jsTruthy, ht]
      unfold handleJoin
      rw [h1]
      simp only [Bool.not_true, Bool.false_eq_true, if_false, jsCallTrim]
      by_cases hs : jsTrim s = ""
      · rw [if_pos hs]
        trivial
      · rw [if_neg hs]
        trivial
  · intro st sock v now hv
    unfold handleJoin
    rw [hv]
    trivial
  · intro st sock s dbSaveOk now
    unfold handleSendMessage
    cases h : sock.username with
    | none => trivial
    | some name =>
      by_cases he : jsTrim s = "" <;>
        simp [jsGetField, jsCallTrim, he, NoThrow]
  · intro sock v
    unfold handleTyping
    cases h : sock.username with
    | none => trivial
    | some name =>
      simp [jsGetField, NoThrow]
  · intro st sock v now ht hns
    cases v with
    | null => simp [jsTruthy] at ht
    | str s => exact absurd rfl (hns s)
    | bool b =>
      unfold handleJoin
      rw [ht]
      rfl
    | num n =>
      unfold handleJoin
      rw [ht]
      rfl
    | obj fields => rfl
  · intro st sock name dbSaveOk now h
    unfold handleSendMessage
    rw [h]
    rfl

theorem handlers_crash_characterisation_witness :
    ((Socket.mk 2 none).username = none ∧
      NoThrow (handleSendMessage (initialState true) ⟨2, none⟩ .null
        true 0) ∧
      NoThrow (handleTyping ⟨2, none⟩ .null)) ∧
    (jsTruthy .null = false ∧
      NoThrow (handleJoin (initialState true) ⟨2, none⟩ .null 0)) ∧
    (jsTruthy (.obj []) = true ∧ (∀ s, JSValue.obj [] ≠ .str s) ∧
      handleJoin (initialState true) ⟨2, none⟩ (.obj []) 0 =
        .error .typeError) ∧
    ((Socket.mk 2 (some "alice")).username = some "alice" ∧
      handleSendMessage (initialState true) ⟨2, some "alice"⟩ .null true 0 =
        .error .typeError) :=
  ⟨⟨rfl, handlers_crash_characterisation.1 (initialState true) ⟨2, none⟩
      .null true 0 rfl⟩,
   ⟨rfl, handlers_crash_characterisation.2.2.1 (initialState true)
      ⟨2, none⟩ .null 0 rfl⟩,
   ⟨rfl, fun _ h => JSValue.noConfusion h,
    handlers_crash_characterisation.2.2.2.2.2.1 (initialState true)
      ⟨2, none⟩ (.obj []) 0 rfl (fun _ h => JSValue.noConfusion h)⟩,
   ⟨rfl, handlers_crash_characterisation.2.2.2.2.2.2 (initialState true)
      ⟨2, some "alice"⟩ "alice" true 0 rfl⟩⟩

/-! ### Claim theorems: availability mode fixed at startup -/

/-- A completed `join` never changes the `isDbConnected` flag. -/
theorem handleJoin_isDbConnected {st st' : ServerState} {sock sock' : Socket}
    {v : JSValue} {now : Nat} {es : List Emit}
    (h : handleJoin st sock v now = .ok (st', sock', es)) :
    st'.isDbConnected = st.isDbConnected := by
  unfold handleJoin at h
  split at h
  · simp only [Except.ok.injEq, Prod.mk.injEq] at h
    obtain ⟨rfl, -, -⟩ := h
    rfl
  · split at h
    · exact absurd h (by simp)
    · split at h
      · simp only [Except.ok.injEq, Prod.mk.injEq] at h
        obtain ⟨rfl, -, -⟩ := h
        rfl
      · simp only [Except.ok.injEq, Prod.mk.injEq] at h
        obtain ⟨rfl, -, -⟩ := h
        rfl

/-- A completed `send-message` never changes the `isDbConnected` flag. -/
theorem handleSendMessage_isDbConnected {st st' : ServerState}
    {sock : Socket} {data : JSValue} {dbSaveOk : Bool} {now : Nat}
    {es : List Emit}
    (h : handleSendMessage st sock data dbSaveOk now = .ok (st', es)) :
    st'.isDbConnected = st.isDbConnected := by
  unfold handleSendMessage at h
  split at h
  · simp only [Except.ok.injEq, Prod.mk.injEq] at h
    obtain ⟨rfl, -⟩ := h
    rfl
  · split at h
    · exact absurd h (by simp)
    · split at h
      · exact absurd h (by simp)
      · split at h
        · simp only [Except.ok.injEq, Prod.mk.injEq] at h
          obtain ⟨rfl, -⟩ := h
          rfl
        · simp only [Except.ok.injEq, Prod.mk.injEq] at h
          obtain ⟨rfl, -⟩ := h
          rfl

/-- A `disconnect` never changes the `isDbConnected` flag. -/
theorem handleDisconnect_isDbConnected {st st' : ServerState}
    {sock : Socket} {now : Nat} {es : List Emit}
    (h : handleDisconnect st sock now = (st', es)) :
    st'.isDbConnected = st.isDbConnected := by
  unfold handleDisconnect at h
  split at h
  · simp only [Prod.mk.injEq] at h
    obtain ⟨rfl, -⟩ := h
    rfl
  · simp only [Prod.mk.injEq] at h
    obtain ⟨rfl, -⟩ := h
    rfl

/-- No server action changes the `isDbConnected` flag: only the single
startup `connectDB` determines it. -/
theorem step_isDbConnected_eq {a b : ServerState} (h : Step a b) :
    b.isDbConnected = a.isDbConnected := by
  cases h with
  | join _ _ _ _ _ h => exact handleJoin_isDbConnected h
  | send _ _ _ _ _ h => exact handleSendMessage_isDbConnected h
  | disconnect _ _ _ h => exact handleDisconnect_isDbConnected h

/-- Along any run, the `isDbConnected` flag keeps its startup value. -/
theorem reachable_isDbConnected_eq {init st : ServerState}
    (h : Reachable init st) : st.isDbConnected = init.isDbConnected := by
  induction h with
  | refl => rfl
  | step _ s ih => rw [step_isDbConnected_eq s, ih]

/-- C5: if the startup database connection fails, then in every state the
server can subsequently reach, the `GET /api/messages` response carries
source `memory` — in particular never `database` — whatever the per-call
outcome `dbQueryOk`: a per-call storage failure never flips the
availability mode. -/
theorem source_never_database_after_failed_connect (st : ServerState)
    (h : Reachable (initialState false) st) (dbQueryOk : Bool) :
    (apiMessages st dbQueryOk).2 = "memory" ∧
    (apiMessages st dbQueryOk).2 ≠ "database" := by
  have hdb : st.isDbConnected = false := reachable_isDbConnected_eq h
  constructor <;> simp [apiMessages, hdb]

theorem source_never_database_after_failed_connect_witness :
    Reachable (initialState false)
      ⟨false, [⟨"alice", "hi", 1⟩], [], [("alice", ⟨0, 0⟩)]⟩ ∧
    ((apiMessages ⟨false, [⟨"alice", "hi", 1⟩], [], [("alice", ⟨0, 0⟩)]⟩
        true).2 = "memory" ∧
     (apiMessages ⟨false, [⟨"alice", "hi", 1⟩], [], [("alice", ⟨0, 0⟩)]⟩
        true).2 ≠ "database") := by
  have h1 : Step (initialState false) ⟨false, [], [], [("alice", ⟨0, 0⟩)]⟩ :=
    Step.join ⟨0, none⟩ (.str "alice") 0 ⟨0, some "alice"⟩
      [(Target.toOthers 0, Event.userJoined "alice" 0),
       (Target.toAll, Event.usersUpdate ["alice"])] rfl
  have h2 : Step ⟨false, [], [], [("alice", ⟨0, 0⟩)]⟩
      ⟨false, [⟨"alice", "hi", 1⟩], [], [("alice", ⟨0, 0⟩)]⟩ :=
    Step.send ⟨0, some "alice"⟩ (.obj [("message", .str "hi")]) false 1
      [(Target.toAll, Event.newMessage ⟨"alice", "hi", 1⟩)] rfl
  have hr : Reachable (initialState false)
      ⟨false, [⟨"alice", "hi", 1⟩], [], [("alice", ⟨0, 0⟩)]⟩ :=
    Reachable.step (Reachable.step Reachable.refl h1) h2
  exact ⟨hr, source_never_database_after_failed_connect _ hr true⟩

/-! ### Claim theorems: the recent-messages query -/

theorem tsDesc_trans (a b c : Msg) (h1 : tsDesc a b = true)
    (h2 : tsDesc b c = true) : tsDesc a c = true := by
  simp only [tsDesc, decide_eq_true_eq] at h1 h2 ⊢
  omega

theorem tsDesc_total (a b : Msg) : (tsDesc a b || tsDesc b a) = true := by
  simp only [tsDesc, Bool.or_eq_true, decide_eq_true_eq]
  omega

/-- The database path of `GET /api/messages` yields a chronologically
ascending list of at most 50 messages drawn from the store. -/
theorem queryRecentDb_spec (db : List Msg) :
    Chron (queryRecentDb db) ∧ (queryRecentDb db).length ≤ 50 ∧
    ∀ m ∈ queryRecentDb db, m ∈ db := by
  refine ⟨?_, ?_, ?_⟩
  · have h1 := @List.sorted_mergeSort Msg tsDesc
      (tsDesc_trans · · ·) (tsDesc_total · ·) db
    have h2 : List.Pairwise (fun a b => tsDesc a b = true)
        ((db.mergeSort tsDesc).take 50) :=
      List.Pairwise.sublist (List.take_sublist 50 _) h1
    unfold Chron queryRecentDb
    rw [List.pairwise_reverse]
    refine h2.imp ?_
    intro a b hab
    simpa [tsDesc] using hab
  · simp only [queryRecentDb, List.length_reverse, List.length_take]
    omega
  · intro m hm
    rw [queryRecentDb, List.mem_reverse] at hm
    exact (List.mergeSort_perm db tsDesc).subset
      ((List.take_sublist 50 _).subset hm)

/-- The memory path of `GET /api/messages` (`slice(-50)`) yields at most
50 messages from the buffer, ascending whenever the buffer is. -/
theorem lastN_spec (n : Nat) (l : List Msg) (h : Chron l) :
    Chron (lastN n l) ∧ (lastN n l).length ≤ n ∧
    ∀ m ∈ lastN n l, m ∈ l := by
  refine ⟨List.Pairwise.sublist (List.drop_sublist _ _) h, ?_,
    fun m hm => (List.drop_sublist _ _).subset hm⟩
  simp only [lastN, List.length_drop]
  omega

/-- C4: for every server state and per-call query outcome, the
`GET /api/messages` response holds at most 50 messages in chronologically
ascending order (the buffer being chronological); when the durable store
is available (connected and the query succeeds) the messages come from
the store and the source tag is `database`, otherwise they come from the
in-memory buffer and the source tag is `memory` or `memory-fallback`. -/
theorem apiMessages_spec (st : ServerState) (dbQueryOk : Bool)
    (hmem : Chron st.memoryMessages) :
    (apiMessages st dbQueryOk).1.length ≤ 50 ∧
    Chron (apiMessages st dbQueryOk).1 ∧
    (if st.isDbConnected = true ∧ dbQueryOk = true then
      (apiMessages st dbQueryOk).2 = "database" ∧
        ∀ m ∈ (apiMessages st dbQueryOk).1, m ∈ st.dbMessages
    else
      ((apiMessages st dbQueryOk).2 = "memory" ∨
        (apiMessages st dbQueryOk).2 = "memory-fallback") ∧
        ∀ m ∈ (apiMessages st dbQueryOk).1, m ∈ st.memoryMessages) := by
  obtain ⟨hd1, hd2, hd3⟩ := queryRecentDb_spec st.dbMessages
  obtain ⟨hm1, hm2, hm3⟩ := lastN_spec 50 st.memoryMessages hmem
  by_cases hc : st.isDbConnected = true
  · by_cases hq : dbQueryOk = true
    · have hapi : apiMessages st dbQueryOk =
          (queryRecentDb st.dbMessages, "database") := by
        unfold apiMessages
        rw [hc, hq]
        rfl
      rw [hapi, if_pos ⟨hc, hq⟩]
      exact ⟨hd2, hd1, rfl, hd3⟩
    · have hapi : apiMessages st dbQueryOk =
          (lastN 50 st.memoryMessages, "memory-fallback") := by
        unfold apiMessages
        rw [hc, Bool.not_eq_true dbQueryOk |>.mp hq]
        rfl
      rw [hapi, if_neg (fun hcq => hq hcq.2)]
      exact ⟨hm2, hm1, Or.inr rfl, hm3⟩
  · have hapi : apiMessages st dbQueryOk =
        (lastN 50 st.memoryMessages, "memory") := by
      unfold apiMessages
      rw [Bool.not_eq_true st.isDbConnected |>.mp hc]
      rfl
    rw [hapi, if_neg (fun hcq => hc hcq.1)]
    exact ⟨hm2, hm1, Or.inl rfl, hm3⟩

theorem apiMessages_spec_witness :
    Chron [mkMsg 1, mkMsg 2] ∧
    ((apiMessages ⟨true, [mkMsg 1, mkMsg 2], [mkMsg 5, mkMsg 3], []⟩
        true).1.length ≤ 50 ∧
     Chron (apiMessages ⟨true, [mkMsg 1, mkMsg 2], [mkMsg 5, mkMsg 3], []⟩
        true).1 ∧
     (if (⟨true, [mkMsg 1, mkMsg 2], [mkMsg 5, mkMsg 3], []⟩ :
          ServerState).isDbConnected = true ∧ true = true then
        (apiMessages ⟨true, [mkMsg 1, mkMsg 2], [mkMsg 5, mkMsg 3], []⟩
          true).2 = "database" ∧
        ∀ m ∈ (apiMessages ⟨true, [mkMsg 1, mkMsg 2], [mkMsg 5, mkMsg 3],
          []⟩ true).1,
          m ∈ (⟨true, [mkMsg 1, mkMsg 2], [mkMsg 5, mkMsg 3], []⟩ :
            ServerState).dbMessages
      else
        ((apiMessages ⟨true, [mkMsg 1, mkMsg 2], [mkMsg 5, mkMsg 3], []⟩
            true).2 = "memory" ∨
         (apiMessages ⟨true, [mkMsg 1, mkMsg 2], [mkMsg 5, mkMsg 3], []⟩
            true).2 = "memory-fallback") ∧
        ∀ m ∈ (apiMessages ⟨true, [mkMsg 1, mkMsg 2], [mkMsg 5, mkMsg 3],
          []⟩ true).1,
          m ∈ (⟨true, [mkMsg 1, mkMsg 2], [mkMsg 5, mkMsg 3], []⟩ :
            ServerState).memoryMessages)) :=
  have hm : Chron [mkMsg 1, mkMsg 2] := by
    unfold Chron
    simp [mkMsg]
  ⟨hm, apiMessages_spec ⟨true, [mkMsg 1, mkMsg 2], [mkMsg 5, mkMsg 3], []⟩
    true hm⟩

/-! ### Claim theorems: buffer capacity and eviction order -/

set_option maxRecDepth 10000 in
/-- C3: every completed `send-message` leaves the memory buffer either
unchanged (rejected or empty-body sends) or holding at most 100
messages; the buffer update keeps exactly the most recent entries
(oldest-first eviction, as the drop-prefix characterisation states); and
pushing messages number 1 to 150 into an empty buffer leaves exactly
messages 51-150, whose last 50 entries are exactly messages 101-150 in
chronological order. -/
theorem memoryBuffer_capacity_fifo :
    (∀ (st : ServerState) (sock : Socket) (data : JSValue)
      (dbSaveOk : Bool) (now : Nat) (st' : ServerState) (es : List Emit),
        handleSendMessage st sock data dbSaveOk now = .ok (st', es) →
        st'.memoryMessages.length ≤ 100 ∨
          st'.memoryMessages = st.memoryMessages) ∧
    (∀ (buf : List Msg) (m : Msg), (pushMemory buf m).length ≤ 100 ∧
      pushMemory buf m = (buf ++ [m]).drop (buf.length + 1 - 100)) ∧
    pushedBuffer150 = (List.range' 51 100).map mkMsg ∧
    lastN 50 pushedBuffer150 = (List.range' 101 50).map mkMsg := by
  refine ⟨?_,
    fun buf m => ⟨pushMemory_length_le buf m, pushMemory_eq_drop buf m⟩,
    by decide, by decide⟩
  intro st sock data dbSaveOk now st' es h
  unfold handleSendMessage at h
  split at h
  · simp only [Except.ok.injEq, Prod.mk.injEq] at h
    obtain ⟨rfl, -⟩ := h
    exact Or.inr rfl
  · split at h
    · exact absurd h (by simp)
    · split at h
      · exact absurd h (by simp)
      · split at h
        · simp only [Except.ok.injEq, Prod.mk.injEq] at h
          obtain ⟨rfl, -⟩ := h
          exact Or.inr rfl
        · simp only [Except.ok.injEq, Prod.mk.injEq] at h
          obtain ⟨rfl, -⟩ := h
          exact Or.inl (pushMemory_length_le _ _)

theorem memoryBuffer_capacity_fifo_witness :
    handleSendMessage ⟨true, [], [], [("a", ⟨0, 0⟩)]⟩ ⟨0, some "a"⟩
        (.obj [("message", .str "x")]) true 1 =
      .ok (⟨true, [⟨"a", "x", 1⟩], [⟨"a", "x", 1⟩], [("a", ⟨0, 0⟩)]⟩,
           [(Target.toAll, Event.newMessage ⟨"a", "x", 1⟩)]) ∧
    ((⟨true, [⟨"a", "x", 1⟩], [⟨"a", "x", 1⟩], [("a", ⟨0, 0⟩)]⟩ :
        ServerState).memoryMessages.length ≤ 100 ∨
      (⟨true, [⟨"a", "x", 1⟩], [⟨"a", "x", 1⟩], [("a", ⟨0, 0⟩)]⟩ :
        ServerState).memoryMessages =
        (⟨true, [], [], [("a", ⟨0, 0⟩)]⟩ : ServerState).memoryMessages) :=
  ⟨rfl, memoryBuffer_capacity_fifo.1 ⟨true, [], [], [("a", ⟨0, 0⟩)]⟩
    ⟨0, some "a"⟩ (.obj [("message", .str "x")]) true 1
    ⟨true, [⟨"a", "x", 1⟩], [⟨"a", "x", 1⟩], [("a", ⟨0, 0⟩)]⟩
    [(Target.toAll, Event.newMessage ⟨"a", "x", 1⟩)] rfl⟩
